import Mathlib

/-!
Verification development for the annotation coordinate and state-management
subsystem of a browser-based PDF annotation editor.

The embedding mirrors the TypeScript sources:
* the coordinate mapper (`pdfToCanvas`, `canvasToPdf`, viewport helpers),
  with JS numbers modeled as exact reals;
* the shape drawer's pointer state machine and `createShapeAnnotation`;
* the annotation history service (undo/redo stacks, deep-equality check),
  both as a value-level model and as a reference/heap model that makes the
  JS aliasing of array elements explicit;
* the annotation persistence service (validation, update, delete, import,
  merge), over raw records with optional fields, since records arriving from
  `JSON.parse` need not be well-typed.

Numbers appearing where only field arithmetic and comparisons happen are
modeled as rationals so that statements stay decidable; the coordinate mapper
uses reals because it calls `Math.cos`/`Math.sin`.
-/

noncomputable section CoordinateMapper

open scoped Classical

/-- Rectangle in PDF (document) space: origin bottom-left. `width`/`height`
are optional, mirroring the source interface `PDFCoordinates`. -/
structure PDFCoordinates where
  x : ℝ
  y : ℝ
  width : Option ℝ
  height : Option ℝ

/-- Rectangle in canvas (view) space: origin top-left. Mirrors the source
interface `CanvasCoordinates`, which has the same fields as `PDFCoordinates`. -/
structure CanvasCoordinates where
  x : ℝ
  y : ℝ
  width : Option ℝ
  height : Option ℝ

/-- Page dimensions in document units, as supplied by the renderer. -/
structure PageDimensions where
  width : ℝ
  height : ℝ

/-- Viewport transform `{scale, rotation, offsetX, offsetY}`. -/
structure ViewportTransform where
  scale : ℝ
  rotation : ℝ
  offsetX : ℝ
  offsetY : ℝ

/-- JS `(o || 0)` for an optional number `o`: `undefined` gives `0`, and the
falsy number `0` also gives `0`, so this is exactly `Option.getD o 0`. -/
def jsOrZero (o : Option ℝ) : ℝ :=
  o.getD 0

/-- JS `o ? f(o) : undefined` for an optional number `o`: the number `0` is
falsy, so a present `0` yields `undefined` rather than `f 0`. -/
def jsTruthyMap (o : Option ℝ) (f : ℝ → ℝ) : Option ℝ :=
  match o with
  | none => none
  | some v => if v = 0 then none else some (f v)

/-- The 2D rotation block that both transform functions inline: translate so
that `(centerX, centerY)` is the origin, rotate by `radians`, translate back. -/
def rotateAbout (radians centerX centerY px py : ℝ) : ℝ × ℝ :=
  let translatedX := px - centerX
  let translatedY := py - centerY
  (translatedX * Real.cos radians - translatedY * Real.sin radians + centerX,
   translatedX * Real.sin radians + translatedY * Real.cos radians + centerY)

/-- `pdfToCanvas(pdfCoords, pageDimensions, viewport)`: flip the Y axis
(`pageHeight - y - (height || 0)`), rotate about the page center when
`rotation !== 0`, then apply scale and offset. `width`/`height` are scaled
only when truthy, else `undefined`. -/
def pdfToCanvas (pdfCoords : PDFCoordinates) (pageDimensions : PageDimensions)
    (viewport : ViewportTransform) : CanvasCoordinates :=
  let x := pdfCoords.x
  let y := pageDimensions.height - pdfCoords.y - jsOrZero pdfCoords.height
  let p : ℝ × ℝ :=
    if viewport.rotation ≠ 0 then
      rotateAbout (viewport.rotation * Real.pi / 180) (pageDimensions.width / 2)
        (pageDimensions.height / 2) x y
    else (x, y)
  { x := p.1 * viewport.scale + viewport.offsetX
    y := p.2 * viewport.scale + viewport.offsetY
    width := jsTruthyMap pdfCoords.width (fun w => w * viewport.scale)
    height := jsTruthyMap pdfCoords.height (fun h => h * viewport.scale) }

/-- `canvasToPdf(canvasCoords, pageDimensions, viewport)`: remove scale and
offset, rotate by the negated angle when `rotation !== 0`, then flip the Y
axis back using `pageHeight - y - (height ? height / scale : 0)`. -/
def canvasToPdf (canvasCoords : CanvasCoordinates) (pageDimensions : PageDimensions)
    (viewport : ViewportTransform) : PDFCoordinates :=
  let x := (canvasCoords.x - viewport.offsetX) / viewport.scale
  let y := (canvasCoords.y - viewport.offsetY) / viewport.scale
  let p : ℝ × ℝ :=
    if viewport.rotation ≠ 0 then
      rotateAbout (-viewport.rotation * Real.pi / 180) (pageDimensions.width / 2)
        (pageDimensions.height / 2) x y
    else (x, y)
  let yFlipped := pageDimensions.height - p.2 -
    (match canvasCoords.height with
     | some hv => if hv = 0 then 0 else hv / viewport.scale
     | none => 0)
  { x := p.1
    y := yFlipped
    width := jsTruthyMap canvasCoords.width (fun w => w / viewport.scale)
    height := jsTruthyMap canvasCoords.height (fun h => h / viewport.scale) }

/-- `createViewportTransform(scale, rotation, offsetX, offsetY)`: rotation is
folded into `[0, 360)` by `rotation % 360`, adding `360` when negative.
JS `%` is remainder (sign of the dividend), modeled by `Int.emod`-like
folding on reals via `x - 360 * ⌊x / 360⌋` composed with the sign fix; for
the integral rotations the app uses this matches `Int.emod`. We keep the
integer version, which is what every caller passes. -/
def createViewportTransform (scale : ℝ) (rotation : ℤ) (offsetX offsetY : ℝ) :
    ViewportTransform :=
  let r := rotation % 360
  let normalizedRotation := if r < 0 then r + 360 else r
  { scale := scale
    rotation := (normalizedRotation : ℝ)
    offsetX := offsetX
    offsetY := offsetY }

end CoordinateMapper

/-- Annotation kind, the eight string literals of the source union type. -/
inductive AnnotationType where
  | highlight
  | underline
  | strikethrough
  | note
  | rectangle
  | circle
  | arrow
  | freehand
deriving DecidableEq

/-- Coordinates of an annotation record: document-space rectangle, with an
optional `points` array for line-like shapes. -/
structure AnnotationCoordinates where
  x : ℚ
  y : ℚ
  width : Option ℚ
  height : Option ℚ
  points : Option (List ℚ)
deriving DecidableEq

/-- Style of an annotation record. -/
structure AnnotationStyle where
  color : String
  strokeWidth : ℚ
  opacity : ℚ
  fontSize : Option ℚ
deriving DecidableEq

/-- The annotation record (`AnnotationData` in the source). `Date` values are
modeled as rational timestamps. -/
structure AnnotationData where
  id : String
  type : AnnotationType
  pageNumber : ℚ
  coordinates : AnnotationCoordinates
  style : AnnotationStyle
  content : Option String
  createdAt : ℚ
  updatedAt : ℚ
deriving DecidableEq

/-- The active tool descriptor (`AnnotationTool` in the source). -/
structure AnnotationTool where
  type : AnnotationType
  color : String
  strokeWidth : ℚ
  opacity : ℚ
deriving DecidableEq

/-- A pointer position, already in the shape drawer's working units. -/
structure DrawPoint where
  x : ℚ
  y : ℚ
deriving DecidableEq

/-- The `DrawingState` React state of the `ShapeDrawer` component. -/
structure DrawingState where
  isDrawing : Bool
  startPoint : Option DrawPoint
  currentPoint : Option DrawPoint
  previewShape : Option AnnotationData
deriving DecidableEq

/-- The initial (and reset) drawing state: nothing in progress. -/
def initialDrawingState : DrawingState :=
  { isDrawing := false, startPoint := none, currentPoint := none, previewShape := none }

/-- Source check `selectedTool && ['rectangle','circle','arrow'].includes(selectedTool.type)`. -/
def isShapeTool (selectedTool : Option AnnotationTool) : Bool :=
  match selectedTool with
  | some t =>
    decide (t.type = AnnotationType.rectangle) || decide (t.type = AnnotationType.circle) ||
      decide (t.type = AnnotationType.arrow)
  | none => false

/-- Helper `createShapeAnnotation(tool, pageNumber, startPoint, endPoint)`.
The ambient `crypto.randomUUID()` and `new Date()` are passed in as the
parameters `idv` and `now`. The `default` branch of the source `switch`
throws on non-shape tools and is modeled as `none`; it is unreachable from
the drawer, whose mouse-down handler requires a shape tool. -/
def createShapeAnnotationData (tool : AnnotationTool) (pageNumber : ℚ)
    (startPoint endPoint : DrawPoint) (idv : String) (now : ℚ) : Option AnnotationData :=
  let style : AnnotationStyle :=
    { color := tool.color, strokeWidth := tool.strokeWidth, opacity := tool.opacity,
      fontSize := none }
  match tool.type with
  | AnnotationType.rectangle =>
    some
      { id := idv, type := tool.type, pageNumber := pageNumber,
        coordinates :=
          { x := min startPoint.x endPoint.x, y := min startPoint.y endPoint.y,
            width := some (|endPoint.x - startPoint.x|),
            height := some (|endPoint.y - startPoint.y|), points := none },
        style := style, content := none, createdAt := now, updatedAt := now }
  | AnnotationType.circle =>
    some
      { id := idv, type := tool.type, pageNumber := pageNumber,
        coordinates :=
          { x := min startPoint.x endPoint.x, y := min startPoint.y endPoint.y,
            width := some (|endPoint.x - startPoint.x|),
            height := some (|endPoint.y - startPoint.y|), points := none },
        style := style, content := none, createdAt := now, updatedAt := now }
  | AnnotationType.arrow =>
    some
      { id := idv, type := tool.type, pageNumber := pageNumber,
        coordinates :=
          { x := min startPoint.x endPoint.x, y := min startPoint.y endPoint.y,
            width := none, height := none,
            points := some [startPoint.x, startPoint.y, endPoint.x, endPoint.y] },
        style := style, content := none, createdAt := now, updatedAt := now }
  | _ => none

/-- `handleMouseDown`: ignored when disabled, no tool, or a non-shape tool;
otherwise records the anchor `(client - containerOrigin) / scale` and enters
the drawing state. -/
def handleMouseDown (disabled : Bool) (selectedTool : Option AnnotationTool) (scale : ℚ)
    (rectLeft rectTop clientX clientY : ℚ) (st : DrawingState) : DrawingState :=
  if disabled || selectedTool.isNone || !isShapeTool selectedTool then st
  else
    let startPoint : DrawPoint := ⟨(clientX - rectLeft) / scale, (clientY - rectTop) / scale⟩
    { isDrawing := true, startPoint := some startPoint, currentPoint := some startPoint,
      previewShape := none }

/-- `handleMouseMove`: while drawing, recompute the current point and the
preview shape from the recorded anchor. -/
def handleMouseMove (selectedTool : Option AnnotationTool) (scale pageNumber : ℚ)
    (rectLeft rectTop : ℚ) (idv : String) (now : ℚ) (clientX clientY : ℚ)
    (st : DrawingState) : DrawingState :=
  match st.isDrawing, st.startPoint, selectedTool with
  | true, some sp, some tool =>
    let currentPoint : DrawPoint := ⟨(clientX - rectLeft) / scale, (clientY - rectTop) / scale⟩
    { st with
        currentPoint := some currentPoint,
        previewShape := createShapeAnnotationData tool pageNumber sp currentPoint idv now }
  | _, _, _ => st

/-- JS truthiness of an optional number: present and nonzero. -/
def truthyNum (o : Option ℚ) : Bool :=
  match o with
  | some v => decide (v ≠ 0)
  | none => false

/-- The arrow branch of the minimum-size check: when the preview has at least
four points, compare the endpoint distance with the threshold. `Math.sqrt` is
passed in as `sqrtFn` because the claims under verification never reach this
branch (rectangle previews carry no points); list reads are in-bounds under
the length guard, so `getD` matches the source indexing. -/
def arrowHasMinimumSize (points : List ℚ) (minSize : ℚ) (sqrtFn : ℚ → ℚ) : Bool :=
  if 4 ≤ points.length then
    decide (minSize ≤ sqrtFn ((points.getD 2 0 - points.getD 0 0) ^ 2 +
      (points.getD 3 0 - points.getD 1 0) ^ 2))
  else false

/-- `handleMouseUp`: commit the preview only when it meets the minimum size
`10 / scale`; in every case reset the drawing state. In the source the
width/height branch is guarded by JS truthiness, so `getD 0` below always
reads the truthy values themselves. The returned `Option AnnotationData` is
the argument of the `onAnnotationAdd` callback (`none` when it is not
invoked). -/
def handleMouseUp (sqrtFn : ℚ → ℚ) (scale : ℚ) (st : DrawingState) :
    DrawingState × Option AnnotationData :=
  match st.isDrawing, st.previewShape with
  | true, some shape =>
    let minSize := 10 / scale
    let hasMinimumSize :=
      if truthyNum shape.coordinates.width && truthyNum shape.coordinates.height then
        decide (minSize ≤ shape.coordinates.width.getD 0) &&
          decide (minSize ≤ shape.coordinates.height.getD 0)
      else
        match shape.coordinates.points with
        | some points => arrowHasMinimumSize points minSize sqrtFn
        | none => false
    (initialDrawingState, if hasMinimumSize then some shape else none)
  | _, _ => (initialDrawingState, none)

/-- One full drag gesture over the drawer with the container at the origin:
mouse-down at `(downX, downY)`, the given mouse-move trail, then mouse-up.
Returns the committed annotation, if any. -/
def runShapeDrag (sqrtFn : ℚ → ℚ) (tool : AnnotationTool) (scale pageNumber : ℚ)
    (downX downY : ℚ) (moves : List (ℚ × ℚ)) (idv : String) (now : ℚ) :
    Option AnnotationData :=
  let st1 := handleMouseDown false (some tool) scale 0 0 downX downY initialDrawingState
  let st2 := moves.foldl
    (fun s q => handleMouseMove (some tool) scale pageNumber 0 0 idv now q.1 q.2 s) st1
  (handleMouseUp sqrtFn scale st2).2

/-- Kinds of history actions. -/
inductive HistoryActionType where
  | add
  | update
  | delete
  | batch
deriving DecidableEq

/-- A `HistoryAction` tag: purely informational metadata on a history entry. -/
structure HistoryAction where
  type : HistoryActionType
  description : String
  annotationIds : List String
deriving DecidableEq

/-- One history entry: a snapshot of the annotation list plus metadata. -/
structure HistoryState where
  annotations : List AnnotationData
  timestamp : ℚ
  action : HistoryAction
deriving DecidableEq

/-- The state of an `AnnotationHistoryService` instance. JS array `push`/`pop`
act on the end of the list, so the top of each stack is the last element and
`shift` (eviction of the oldest entry) drops the head. -/
structure AnnotationHistoryService where
  undoStack : List HistoryState
  redoStack : List HistoryState
  currentState : List AnnotationData
  maxHistorySize : ℕ
deriving DecidableEq

/-- Constructor plus `initialize(annotations)`: adopt the given list as
current and clear both stacks. `maxHistorySize` comes from the options
(default 50). -/
def initEngine (annotations : List AnnotationData) (maxHistorySize : ℕ) :
    AnnotationHistoryService :=
  { undoStack := [], redoStack := [], currentState := annotations,
    maxHistorySize := maxHistorySize }

/-- Insert one record into a list sorted by `id`. -/
def insertById (x : AnnotationData) : List AnnotationData → List AnnotationData
  | [] => [x]
  | y :: ys => if x.id ≤ y.id then x :: y :: ys else y :: insertById x ys

/-- Model of `[...a].sort((x, y) => x.id.localeCompare(y.id))`: a stable sort
by `id`; byte-wise string order stands in for `localeCompare`, whose only role
here is to canonicalize the order of the two compared lists. -/
def sortById (l : List AnnotationData) : List AnnotationData :=
  l.foldr insertById []

/-- The `points` comparison inside `areAnnotationsDeepEqual`: when either side
is present (JS arrays are truthy, even empty ones), both must be present with
the same length and pairwise-equal entries, which is plain list equality. -/
def pointsEqual (pa pb : Option (List ℚ)) : Bool :=
  match pa, pb with
  | some xs, some ys => decide (xs = ys)
  | none, none => true
  | _, _ => false

/-- `areAnnotationsDeepEqual(a, b)`: field-by-field comparison of two records
(the source's sequence of early-`false` returns, written as one conjunction).
`createdAt`/`updatedAt` are not compared. -/
def areAnnotationsDeepEqual (a b : AnnotationData) : Bool :=
  decide (a.id = b.id) && decide (a.type = b.type) && decide (a.pageNumber = b.pageNumber) &&
    decide (a.content = b.content) &&
    decide (a.coordinates.x = b.coordinates.x) && decide (a.coordinates.y = b.coordinates.y) &&
    decide (a.coordinates.width = b.coordinates.width) &&
    decide (a.coordinates.height = b.coordinates.height) &&
    pointsEqual a.coordinates.points b.coordinates.points &&
    decide (a.style.color = b.style.color) && decide (a.style.strokeWidth = b.style.strokeWidth) &&
    decide (a.style.opacity = b.style.opacity) && decide (a.style.fontSize = b.style.fontSize)

/-- `areAnnotationsEqual(a, b)`: false on a length mismatch, otherwise sort
both lists by `id` and compare index-wise with `areAnnotationsDeepEqual`. -/
def areAnnotationsEqual (a b : List AnnotationData) : Bool :=
  if a.length ≠ b.length then false
  else
    ((sortById a).zip (sortById b)).all fun p => areAnnotationsDeepEqual p.1 p.2

/-- Deep equality exactly as the specification words it: order-independent,
by sorted id, comparing every field of each record (so, unlike the code's
comparator, timestamps count too). Stated for comparison with
`areAnnotationsEqual`. -/
def specAnnotationsEqual (a b : List AnnotationData) : Bool :=
  decide (sortById a = sortById b)

/-- `saveState(annotations, action, debounce = false)`: a no-op when the new
list is `areAnnotationsEqual` to the tracked current state; otherwise push
the previous current state (with `action` and the current time), evict the
oldest entry past `maxHistorySize`, clear the redo stack, and adopt the new
list. The `debounce = true` path defers to this same code after a timer and
is timing behavior outside this model. -/
def saveState (e : AnnotationHistoryService) (annotations : List AnnotationData)
    (action : HistoryAction) (now : ℚ) : AnnotationHistoryService :=
  if areAnnotationsEqual e.currentState annotations then e
  else
    let pushed := e.undoStack ++ [{ annotations := e.currentState, timestamp := now,
                                    action := action }]
    { e with
        undoStack := if e.maxHistorySize < pushed.length then pushed.tail else pushed,
        redoStack := [],
        currentState := annotations }

/-- `undo()`: `null` on an empty undo stack; otherwise pop its top, push the
current state onto the redo stack (tagged as the inverse action, with redo
eviction past `maxHistorySize`), adopt the popped snapshot and return it. -/
def undo (e : AnnotationHistoryService) (now : ℚ) :
    Option (List AnnotationData) × AnnotationHistoryService :=
  match e.undoStack.getLast? with
  | none => (none, e)
  | some previousState =>
    let redoPushed := e.redoStack ++
      [{ annotations := e.currentState, timestamp := now,
         action :=
           { type := HistoryActionType.batch,
             description := "Redo: " ++ previousState.action.description,
             annotationIds := previousState.action.annotationIds } }]
    (some previousState.annotations,
     { e with
         undoStack := e.undoStack.dropLast,
         redoStack := if e.maxHistorySize < redoPushed.length then redoPushed.tail
                      else redoPushed,
         currentState := previousState.annotations })

/-- `redo()`: `null` on an empty redo stack; otherwise pop its top, push the
current state onto the undo stack (the source applies no size limit here),
adopt the popped snapshot and return it. -/
def redo (e : AnnotationHistoryService) (now : ℚ) :
    Option (List AnnotationData) × AnnotationHistoryService :=
  match e.redoStack.getLast? with
  | none => (none, e)
  | some nextState =>
    (some nextState.annotations,
     { e with
         redoStack := e.redoStack.dropLast,
         undoStack := e.undoStack ++
           [{ annotations := e.currentState, timestamp := now,
              action :=
                { type := HistoryActionType.batch,
                  description := "Undo: " ++ nextState.action.description,
                  annotationIds := nextState.action.annotationIds } }],
         currentState := nextState.annotations })

/-- Reference-semantics model of the history engine. JS arrays hold object
references, and `[...this.currentState]` copies only the array, so the model
stores lists of heap addresses (`ℕ`) and a heap assigns each address its
current record value. Entry metadata (timestamp, action) is elided; the
`annotations` snapshots are what the claim is about. -/
structure RefHistoryService where
  undoStack : List (List ℕ)
  redoStack : List (List ℕ)
  currentState : List ℕ
  maxHistorySize : ℕ

/-- `saveState` in the reference model: the deep-equality check reads the
records through the heap, and the pushed snapshot `[...currentState]` is a
copy of the address array — the addresses, hence the record objects, stay
shared with the live store. -/
def saveStateRef (heap : ℕ → AnnotationData) (e : RefHistoryService)
    (annotations : List ℕ) : RefHistoryService :=
  if areAnnotationsEqual (e.currentState.map heap) (annotations.map heap) then e
  else
    let pushed := e.undoStack ++ [e.currentState]
    { e with
        undoStack := if e.maxHistorySize < pushed.length then pushed.tail else pushed,
        redoStack := [],
        currentState := annotations }

/-- Raw coordinates as they arrive from `JSON.parse`: every field may be
absent or of the wrong type, so each is optional. -/
structure RawCoordinates where
  x : Option ℚ
  y : Option ℚ
  width : Option ℚ
  height : Option ℚ
  points : Option (List ℚ)
deriving DecidableEq

/-- Raw style object from `JSON.parse`. -/
structure RawStyle where
  color : Option String
  strokeWidth : Option ℚ
  opacity : Option ℚ
  fontSize : Option ℚ
deriving DecidableEq

/-- A raw annotation record as handled by the persistence service: fields are
optional because imported/stored JSON need not be well-typed. `Option String`
models "present and a string", `Option ℚ` models "present and a number";
`createdAt`/`updatedAt` model the source's truthiness check as presence. -/
structure RawAnnotationData where
  id : Option String
  type : Option String
  pageNumber : Option ℚ
  coordinates : Option RawCoordinates
  style : Option RawStyle
  content : Option String
  createdAt : Option ℚ
  updatedAt : Option ℚ
deriving DecidableEq

/-- Console output of the persistence service, as far as the claims need it:
`console.warn` versus `console.error`. -/
inductive LogEvent where
  | warn (msg : String)
  | error (msg : String)
deriving DecidableEq

/-- `validateAnnotation(annotation)`: the source checks only that `id` and
`type` are strings, `pageNumber` is a number, `coordinates` exists with
numeric `x` and `y`, `style` exists with a string `color`, and that
`createdAt`/`updatedAt` are truthy. No emptiness, range or finiteness
checks. -/
def validateAnnotationData (a : RawAnnotationData) : Bool :=
  a.id.isSome && a.type.isSome && a.pageNumber.isSome &&
    (match a.coordinates with
     | some c => c.x.isSome && c.y.isSome
     | none => false) &&
    (match a.style with
     | some s => s.color.isSome
     | none => false) &&
    a.createdAt.isSome && a.updatedAt.isSome

/-- Record validity as the specification defines it: `id` a non-empty string,
`pageNumber ≥ 1`, `coordinates.x`/`y` finite numbers (every rational is
finite), `style.color` a non-empty string. Stated for comparison with
`validateAnnotationData`. -/
def specValidRecord (a : RawAnnotationData) : Bool :=
  (match a.id with
   | some s => !s.isEmpty
   | none => false) &&
    (match a.pageNumber with
     | some n => decide (1 ≤ n)
     | none => false) &&
    (match a.coordinates with
     | some c => c.x.isSome && c.y.isSome
     | none => false) &&
    (match a.style with
     | some s =>
       match s.color with
       | some c => !c.isEmpty
       | none => false
     | none => false)

/-- `loadAnnotations(pdfUrl)` for the document whose stored annotation list
is `stored`: validate every record and drop the invalid ones. The
document-key hashing and the version/timestamp bookkeeping of
`saveAnnotations` are orthogonal to the annotation lists and are elided
throughout this persistence model. -/
def loadAnnotations (stored : List RawAnnotationData) : List RawAnnotationData :=
  stored.filter validateAnnotationData

/-- `updateAnnotation(pdfUrl, annotation)`. Returns the document's stored
list after the call, whether an exception propagated to the caller, and
console output. An unknown id throws inside the `try`; the `catch` logs
`console.error` and re-throws `Failed to update annotation`, leaving the
stored list unchanged. On success the loaded (validated) list with the
replaced record — `updatedAt` refreshed — is saved back. -/
def updateAnnotationData (stored : List RawAnnotationData) (a : RawAnnotationData)
    (now : ℚ) : List RawAnnotationData × Except String Unit × List LogEvent :=
  let existingAnnotations := loadAnnotations stored
  match existingAnnotations.findIdx? (fun b => decide (b.id = a.id)) with
  | none =>
    (stored, Except.error ("Failed to update annotation"),
     [LogEvent.error ("Error updating annotation")])
  | some index =>
    (existingAnnotations.set index { a with updatedAt := some now }, Except.ok (), [])

/-- `deleteAnnotation(pdfUrl, annotationId)`. An id that matches nothing in
the loaded list leaves the lengths equal, logs `console.warn` and returns
without saving; otherwise the filtered list is saved back. -/
def deleteAnnotationData (stored : List RawAnnotationData) (annotationId : String) :
    List RawAnnotationData × Except String Unit × List LogEvent :=
  let existingAnnotations := loadAnnotations stored
  let filteredAnnotations := existingAnnotations.filter fun b => decide (b.id ≠ some annotationId)
  if filteredAnnotations.length = existingAnnotations.length then
    (stored, Except.ok (), [LogEvent.warn ("Annotation with id not found")])
  else
    (filteredAnnotations, Except.ok (), [])

/-- `mergeAnnotations(existing, imported)`: start from a copy of `existing`,
take the id set of `existing`, and push each imported record whose id is not
in that set (the set is not extended while pushing). -/
def mergeAnnotations (existing imported : List RawAnnotationData) :
    List RawAnnotationData :=
  let existingIds := existing.map fun a => a.id
  imported.foldl (fun merged a => if existingIds.contains a.id then merged else merged ++ [a])
    existing

/-- `importAnnotations(pdfUrl, data)` with `data` already parsed into a list
of raw records: filter by validation; throw `Failed to import annotations`
when nothing valid remains; otherwise merge with the loaded list, save, and
return the count of valid imported records. -/
def importAnnotations (stored : List RawAnnotationData)
    (annotationsData : List RawAnnotationData) :
    List RawAnnotationData × Except String ℕ × List LogEvent :=
  let validAnnotations := annotationsData.filter validateAnnotationData
  if validAnnotations.length = 0 then
    (stored, Except.error ("Failed to import annotations"),
     [LogEvent.error ("Error importing annotations")])
  else
    let existingAnnotations := loadAnnotations stored
    let mergedAnnotations := mergeAnnotations existingAnnotations validAnnotations
    (mergedAnnotations, Except.ok validAnnotations.length, [])

/-- A concrete rectangle annotation used in concrete instances below. -/
def annRect (idv : String) (xv : ℚ) : AnnotationData :=
  { id := idv, type := AnnotationType.rectangle, pageNumber := 1,
    coordinates := { x := xv, y := 0, width := some 10, height := some 20, points := none },
    style := { color := "#ff0000", strokeWidth := 2, opacity := 1, fontSize := none },
    content := none, createdAt := 0, updatedAt := 0 }

/-- A concrete `add` action tag. -/
def actAdd : HistoryAction :=
  { type := HistoryActionType.add, description := "Add rectangle", annotationIds := ["a"] }

/-- Heap for the reference-model scenario: address 0 holds record `a` with
`coordinates.x = 1`, every other address holds record `b`. -/
def heapLive : ℕ → AnnotationData :=
  fun n => if n = 0 then annRect ("a") 1 else annRect ("b") 2

/-- The same heap after the live store mutates the object at address 0 in
place, setting `coordinates.x` to 99. -/
def heapMutated : ℕ → AnnotationData :=
  fun n => if n = 0 then annRect ("a") 99 else heapLive n

/-- A well-formed raw record with the given id. -/
def rawGood (idv : String) : RawAnnotationData :=
  { id := some idv, type := some ("rectangle"), pageNumber := some 1,
    coordinates := some { x := some 1, y := some 2, width := none, height := none,
                          points := none },
    style := some { color := some ("#ff0000"), strokeWidth := none, opacity := none,
                    fontSize := none },
    content := none, createdAt := some 0, updatedAt := some 0 }

/-- A raw record with no `id` field; everything else is well-formed. -/
def rawMissingId : RawAnnotationData :=
  { rawGood ("c") with id := none }

/-- A raw record with an empty-string id, `pageNumber = 0` and an
empty-string color: it passes the source's type-shape checks while failing
the specification's validity definition on all three counts. -/
def rawEmptyId : RawAnnotationData :=
  { id := some (""), type := some ("rectangle"), pageNumber := some 0,
    coordinates := some { x := some 1, y := some 2, width := none, height := none,
                          points := none },
    style := some { color := some (""), strokeWidth := none, opacity := none,
                    fontSize := none },
    content := none, createdAt := some 0, updatedAt := some 0 }

/-- A raw record that has an id but fails validation (no type, page,
coordinates, style or timestamps). -/
def rawInvalidOnlyId : RawAnnotationData :=
  { id := some ("a"), type := none, pageNumber := none, coordinates := none,
    style := none, content := none, createdAt := none, updatedAt := none }

theorem rotateAbout_neg (rad cx cy px py : ℝ) :
    rotateAbout (-rad) cx cy (rotateAbout rad cx cy px py).1
      (rotateAbout rad cx cy px py).2 = (px, py) := by
  have h := Real.sin_sq_add_cos_sq rad
  simp only [rotateAbout, Real.cos_neg, Real.sin_neg]
  refine Prod.ext ?_ ?_
  · simp only
    linear_combination (px - cx) * h
  · simp only
    linear_combination (py - cy) * h

theorem unscale_cancel (a o s : ℝ) (hs : s ≠ 0) : (a * s + o - o) / s = a := by
  rw [add_sub_cancel_right, mul_div_cancel_right₀ _ hs]

theorem jsTruthyMap_roundtrip (o : Option ℝ) (s : ℝ) (hs : s ≠ 0)
    (ho : ∀ v, o = some v → v ≠ 0) :
    jsTruthyMap (jsTruthyMap o (fun w => w * s)) (fun w => w / s) = o := by
  cases o with
  | none => rfl
  | some v =>
    have hv : v ≠ 0 := ho v rfl
    simp [jsTruthyMap, hv, mul_ne_zero hv hs, mul_div_cancel_right₀ _ hs]

theorem heightTerm_roundtrip (o : Option ℝ) (s : ℝ) (hs : s ≠ 0)
    (ho : ∀ v, o = some v → v ≠ 0) :
    (match jsTruthyMap o (fun w => w * s) with
     | some hv => if hv = 0 then (0 : ℝ) else hv / s
     | none => 0) = jsOrZero o := by
  cases o with
  | none => rfl
  | some v =>
    have hv : v ≠ 0 := ho v rfl
    simp [jsTruthyMap, jsOrZero, hv, mul_ne_zero hv hs, mul_div_cancel_right₀ _ hs]

theorem canvasToPdf_pdfToCanvas (r : PDFCoordinates) (d : PageDimensions)
    (v : ViewportTransform) (hs : v.scale ≠ 0)
    (hw : ∀ w, r.width = some w → w ≠ 0)
    (hh : ∀ w, r.height = some w → w ≠ 0) :
    canvasToPdf (pdfToCanvas r d v) d v = r := by
  obtain ⟨rx, ry, rw, rh⟩ := r
  by_cases hrot : v.rotation = 0
  · simp only [pdfToCanvas, canvasToPdf, hrot, ne_eq, not_true_eq_false, if_false,
      PDFCoordinates.mk.injEq]
    refine ⟨unscale_cancel _ _ _ hs, ?_, jsTruthyMap_roundtrip _ _ hs hw,
      jsTruthyMap_roundtrip _ _ hs hh⟩
    rw [heightTerm_roundtrip _ _ hs hh, unscale_cancel _ _ _ hs]
    ring
  · simp only [pdfToCanvas, canvasToPdf, hrot, ne_eq, not_false_eq_true, if_true,
      PDFCoordinates.mk.injEq]
    have harg : -v.rotation * Real.pi / 180 = -(v.rotation * Real.pi / 180) := by ring
    have hpair := rotateAbout_neg (v.rotation * Real.pi / 180) (d.width / 2) (d.height / 2)
      rx (d.height - ry - jsOrZero rh)
    rw [Prod.ext_iff] at hpair
    rw [harg, unscale_cancel _ _ _ hs, unscale_cancel _ _ _ hs]
    refine ⟨hpair.1, ?_, jsTruthyMap_roundtrip _ _ hs hw, jsTruthyMap_roundtrip _ _ hs hh⟩
    rw [hpair.2, heightTerm_roundtrip _ _ hs hh]
    ring

theorem areAnnotationsDeepEqual_refl (a : AnnotationData) :
    areAnnotationsDeepEqual a a = true := by
  simp only [areAnnotationsDeepEqual, decide_eq_true_eq]
  cases hp : a.coordinates.points <;> simp [pointsEqual, hp]

theorem zip_all_deepEqual_refl (l : List AnnotationData) :
    (l.zip l).all (fun p => areAnnotationsDeepEqual p.1 p.2) = true := by
  induction l with
  | nil => rfl
  | cons a t ih => simpa [List.zip_cons_cons, areAnnotationsDeepEqual_refl] using ih

theorem length_insertById (x : AnnotationData) (l : List AnnotationData) :
    (insertById x l).length = l.length + 1 := by
  induction l with
  | nil => rfl
  | cons y ys ih =>
    by_cases h : x.id ≤ y.id
    · simp [insertById, h]
    · simp [insertById, h, ih]

theorem length_sortById (l : List AnnotationData) :
    (sortById l).length = l.length := by
  induction l with
  | nil => rfl
  | cons a t ih => simp [sortById, List.foldr_cons, length_insertById]; simpa [sortById] using ih

theorem areAnnotationsEqual_of_sortById_eq (a b : List AnnotationData)
    (h : sortById a = sortById b) : areAnnotationsEqual a b = true := by
  have hlen : a.length = b.length := by
    rw [← length_sortById a, ← length_sortById b, h]
  simp only [areAnnotationsEqual, hlen, ne_eq, not_true_eq_false, if_false, h]
  exact zip_all_deepEqual_refl (sortById b)

theorem areAnnotationsEqual_refl (l : List AnnotationData) :
    areAnnotationsEqual l l = true :=
  areAnnotationsEqual_of_sortById_eq l l rfl

theorem areAnnotationsEqual_of_length_ne (a b : List AnnotationData)
    (h : a.length ≠ b.length) : areAnnotationsEqual a b = false := by
  simp [areAnnotationsEqual, h]

/-- Claim C3: when `saveState(newAnnotations, action, debounce = false)` is
called with a list deep-equal (order-independent, by sorted id, every field
compared) to the engine's tracked current state, the call is a no-op — the
engine, including both stacks and the current state, is unchanged; and a
second `saveState` with the identical list never adds a second entry, so two
identical calls yield exactly the state of the first one. -/
theorem saveState_noop :
    (∀ (e : AnnotationHistoryService) (anns : List AnnotationData) (act : HistoryAction)
      (now : ℚ), specAnnotationsEqual e.currentState anns = true →
      saveState e anns act now = e) ∧
    (∀ (e : AnnotationHistoryService) (anns : List AnnotationData) (act act' : HistoryAction)
      (now now' : ℚ),
      saveState (saveState e anns act now) anns act' now' = saveState e anns act now) := by
  constructor
  · intro e anns act now h
    have hsort : sortById e.currentState = sortById anns := by
      simpa [specAnnotationsEqual] using h
    have heq : areAnnotationsEqual e.currentState anns = true :=
      areAnnotationsEqual_of_sortById_eq _ _ hsort
    simp [saveState, heq]
  · intro e anns act act' now now'
    by_cases h : areAnnotationsEqual e.currentState anns = true
    · simp [saveState, h]
    · set s1 := saveState e anns act now with hs1
      have hcur : s1.currentState = anns := by
        rw [hs1]; simp [saveState, h]
      have hc : areAnnotationsEqual s1.currentState anns = true := by
        rw [hcur]; exact areAnnotationsEqual_refl anns
      rw [saveState, if_pos hc]

/-- Witness for C3 at a concrete engine: a `saveState` whose argument already
equals the current state leaves the engine untouched. -/
theorem saveState_noop_witness :
    saveState (initEngine [annRect ("a") 1] 50) [annRect ("a") 1] actAdd 3 =
      initEngine [annRect ("a") 1] 50 :=
  saveState_noop.1 (initEngine [annRect ("a") 1] 50) [annRect ("a") 1] actAdd 3 (by decide)

/-- Claim C5: a forward `saveState` (one whose annotations differ from the
tracked current state) clears the redo stack unconditionally, so a following
`redo()` returns `null` and changes nothing; in particular this holds for the
engine state reached by any `undo()`. -/
theorem saveState_clears_redoStack :
    (∀ (e : AnnotationHistoryService) (anns : List AnnotationData) (act : HistoryAction)
      (now : ℚ), areAnnotationsEqual e.currentState anns = false →
      (saveState e anns act now).redoStack = [] ∧
      ∀ now', redo (saveState e anns act now) now' = (none, saveState e anns act now)) ∧
    (∀ (e : AnnotationHistoryService) (now : ℚ) (anns : List AnnotationData)
      (act : HistoryAction) (now' now'' : ℚ),
      areAnnotationsEqual (undo e now).2.currentState anns = false →
      (redo (saveState ((undo e now).2) anns act now') now'').1 = none) := by
  have key : ∀ (e : AnnotationHistoryService) (anns : List AnnotationData)
      (act : HistoryAction) (now : ℚ), areAnnotationsEqual e.currentState anns = false →
      (saveState e anns act now).redoStack = [] := by
    intro e anns act now h
    simp [saveState, h]
  constructor
  · intro e anns act now h
    refine ⟨key e anns act now h, ?_⟩
    intro now'
    have hr := key e anns act now h
    rw [redo, hr]
    rfl
  · intro e now anns act now' now'' h
    have hr := key ((undo e now).2) anns act now' h
    rw [redo, hr]
    rfl

theorem tail_concat_getLast? {α : Type} (l : List α) (x : α) (hl : l ≠ []) :
    (l ++ [x]).tail.getLast? = some x := by
  cases l with
  | nil => simp at hl
  | cons a t => simp [List.getLast?_concat]

/-- Claim C4: `undo()` pops the most recent undo entry, pushes the current
state onto the redo stack, adopts the popped snapshot as current and returns
it, and is a `null` no-op on an empty undo stack; `redo()` is symmetric
(also `null` on empty); and concretely, starting from current state `A`,
after a `saveState` to `A ++ [B]`, `undo()` returns `A` and a subsequent
`redo()` returns `A ++ [B]` exactly. The undo conjunct assumes the
always-positive `maxHistorySize` (default 50) so that the redo-stack cap
cannot evict the entry just pushed. -/
theorem undo_redo_spec :
    (∀ (e : AnnotationHistoryService) (now : ℚ), e.undoStack = [] → undo e now = (none, e)) ∧
    (∀ (e : AnnotationHistoryService) (now : ℚ) (ps : HistoryState),
      0 < e.maxHistorySize → e.undoStack.getLast? = some ps →
      (undo e now).1 = some ps.annotations ∧
      (undo e now).2.currentState = ps.annotations ∧
      (undo e now).2.undoStack = e.undoStack.dropLast ∧
      ((undo e now).2.redoStack.getLast?).map (fun s => s.annotations) =
        some e.currentState) ∧
    (∀ (e : AnnotationHistoryService) (now : ℚ), e.redoStack = [] → redo e now = (none, e)) ∧
    (∀ (e : AnnotationHistoryService) (now : ℚ) (ns : HistoryState),
      e.redoStack.getLast? = some ns →
      (redo e now).1 = some ns.annotations ∧
      (redo e now).2.currentState = ns.annotations ∧
      (redo e now).2.redoStack = e.redoStack.dropLast ∧
      ((redo e now).2.undoStack.getLast?).map (fun s => s.annotations) =
        some e.currentState) ∧
    (∀ (A : List AnnotationData) (B : AnnotationData) (act : HistoryAction)
      (now now' now'' : ℚ),
      (undo (saveState (initEngine A 50) (A ++ [B]) act now) now').1 = some A ∧
      (redo ((undo (saveState (initEngine A 50) (A ++ [B]) act now) now').2) now'').1 =
        some (A ++ [B])) := by
  refine ⟨?_, ?_, ?_, ?_, ?_⟩
  · intro e now h
    simp [undo, h]
  · intro e now ps hmax hps
    refine ⟨by simp [undo, hps], by simp [undo, hps], by simp [undo, hps], ?_⟩
    simp only [undo, hps]
    split
    next hc =>
      have hne : e.redoStack ≠ [] := by
        intro hnil
        rw [hnil] at hc
        simp at hc
        omega
      rw [tail_concat_getLast? _ _ hne]
      rfl
    next hc =>
      rw [List.getLast?_concat]
      rfl
  · intro e now h
    simp [redo, h]
  · intro e now ns hns
    refine ⟨by simp [redo, hns], by simp [redo, hns], by simp [redo, hns], ?_⟩
    simp only [redo, hns]
    rw [List.getLast?_concat]
    rfl
  · intro A B act now now' now''
    have hne : areAnnotationsEqual A (A ++ [B]) = false :=
      areAnnotationsEqual_of_length_ne _ _ (by simp)
    have h1 : saveState (initEngine A 50) (A ++ [B]) act now =
        ⟨[⟨A, now, act⟩], [], A ++ [B], 50⟩ := by
      simp [saveState, initEngine, hne]
    rw [h1]
    have h2 : undo (⟨[⟨A, now, act⟩], [], A ++ [B], 50⟩ : AnnotationHistoryService) now' =
        (some A,
         ⟨[], [⟨A ++ [B], now',
               ⟨HistoryActionType.batch, "Redo: " ++ act.description, act.annotationIds⟩⟩],
          A, 50⟩) := by
      simp [undo]
    rw [h2]
    exact ⟨rfl, by simp [redo]⟩

/-- Witness for C4 at a concrete engine: with one undo entry holding the
empty snapshot, `undo` returns that snapshot. -/
theorem undo_redo_spec_witness :
    (undo ⟨[⟨[], 0, actAdd⟩], [], [annRect ("a") 1], 50⟩ 3).1 = some [] := by
  have h := undo_redo_spec.2.1 ⟨[⟨[], 0, actAdd⟩], [], [annRect ("a") 1], 50⟩ 3
    ⟨[], 0, actAdd⟩ (by decide) rfl
  exact h.1

/-- Witness for C5 at a concrete engine: a forward save wipes a non-empty
redo stack. -/
theorem saveState_clears_redoStack_witness :
    (saveState ⟨[], [⟨[], 0, actAdd⟩], [], 50⟩ [annRect ("a") 1] actAdd 1).redoStack = [] :=
  (saveState_clears_redoStack.1 ⟨[], [⟨[], 0, actAdd⟩], [], 50⟩ [annRect ("a") 1] actAdd 1
    (by decide)).1

/-- Claim C8: in the reference model, a history push stores the address array
only (`[...currentState]`), not deep copies of the records. At the concrete
failing input — current state `[0]`, forward save to `[0, 1]` — the pushed
undo entry is the address list `[0]`; after the live store mutates the record
object at address 0 in place (`coordinates.x` from 1 to 99), reading the
pushed snapshot yields the mutated record, not the value it had when pushed.
This contradicts the specified deep-copy snapshot behavior. -/
theorem history_push_shares_refs :
    (saveStateRef heapLive ⟨[], [], [0], 50⟩ [0, 1]).undoStack = [[0]] ∧
    ((saveStateRef heapLive ⟨[], [], [0], 50⟩ [0, 1]).undoStack.map
      (fun entry => entry.map heapMutated)) = [[annRect ("a") 99]] ∧
    heapLive 0 = annRect ("a") 1 ∧ annRect ("a") 99 ≠ annRect ("a") 1 := by
  decide

theorem findIdx?_eq_none_of_all {α : Type} (l : List α) (p : α → Bool)
    (h : ∀ a ∈ l, p a = false) : l.findIdx? p = none := by
  induction l with
  | nil => rfl
  | cons a t ih =>
    have ha := h a (by simp)
    rw [List.findIdx?_cons]
    simp only [ha, cond_false]
    have ht := ih (fun b hb => h b (by simp [hb]))
    simp [ht]

/-- Claim C6 counterexample: an update whose target id is absent from the
store is not a logged no-op — an exception (`Failed to update annotation`)
propagates to the caller and the log is `console.error`, not a warning. -/
theorem update_missing_id_throws :
    updateAnnotationData [] (rawGood ("a")) 0 =
      ([], Except.error ("Failed to update annotation"),
       [LogEvent.error ("Error updating annotation")]) := by
  rfl

/-- Claim C6 (amended): for an id absent from the stored collection, `delete`
is a warn-and-no-op with no exception, while `update` leaves the stored
annotations unchanged but logs `console.error` and throws
`Failed to update annotation` to the caller. -/
theorem update_delete_missing_id_spec :
    (∀ (stored : List RawAnnotationData) (a : RawAnnotationData) (now : ℚ),
      (∀ b ∈ loadAnnotations stored, b.id ≠ a.id) →
      updateAnnotationData stored a now =
        (stored, Except.error ("Failed to update annotation"),
         [LogEvent.error ("Error updating annotation")])) ∧
    (∀ (stored : List RawAnnotationData) (idv : String),
      (∀ b ∈ loadAnnotations stored, b.id ≠ some idv) →
      deleteAnnotationData stored idv =
        (stored, Except.ok (), [LogEvent.warn ("Annotation with id not found")])) := by
  constructor
  · intro stored a now h
    have hidx : (loadAnnotations stored).findIdx? (fun b => decide (b.id = a.id)) = none :=
      findIdx?_eq_none_of_all _ _ (by intro b hb; simpa using h b hb)
    simp [updateAnnotationData, hidx]
  · intro stored idv h
    have hfilter : (loadAnnotations stored).filter (fun b => decide (b.id ≠ some idv)) =
        loadAnnotations stored := by
      apply List.filter_eq_self.mpr
      intro b hb
      simpa using h b hb
    simp [deleteAnnotationData, hfilter]
    intro x hx
    exact h x hx

/-- Witness for C6 at concrete inputs: update into an empty store throws;
delete of an unknown id warns and keeps the store. -/
theorem update_delete_missing_id_spec_witness :
    updateAnnotationData [] (rawGood ("a")) 5 =
      ([], Except.error ("Failed to update annotation"),
       [LogEvent.error ("Error updating annotation")]) ∧
    deleteAnnotationData [rawGood ("a")] "zz" =
      ([rawGood ("a")], Except.ok (), [LogEvent.warn ("Annotation with id not found")]) :=
  ⟨update_delete_missing_id_spec.1 [] (rawGood ("a")) 5 (by simp [loadAnnotations]),
   update_delete_missing_id_spec.2 [rawGood ("a")] "zz" (by decide)⟩

/-- Claim C7 counterexample: the record `rawEmptyId` (empty-string id,
`pageNumber = 0`, empty-string color) fails the claimed validity definition,
yet the code accepts it: validation passes and an import consisting of it
succeeds with count 1 and stores it. -/
theorem import_accepts_invalid_record :
    validateAnnotationData rawEmptyId = true ∧ specValidRecord rawEmptyId = false ∧
    importAnnotations [] [rawEmptyId] = ([rawEmptyId], Except.ok 1, []) :=
  ⟨by decide, by decide, rfl⟩

/-- Claim C7 (amended): a record is accepted on load exactly when it passes
the code's type-shape validation (string id and type, numeric page, numeric
coordinates, string color, truthy timestamps — no emptiness, range or
finiteness checks); an import with at least one valid record succeeds and
returns the count of valid records; an import with none throws instead of
succeeding with an empty subset; and the one-well-formed-plus-one-missing-id
example yields exactly 1. -/
theorem import_validation_spec :
    (∀ (stored : List RawAnnotationData) (a : RawAnnotationData),
      a ∈ loadAnnotations stored ↔ a ∈ stored ∧ validateAnnotationData a = true) ∧
    (∀ (stored dataL : List RawAnnotationData),
      dataL.filter validateAnnotationData ≠ [] →
      (importAnnotations stored dataL).2.1 =
        Except.ok (dataL.filter validateAnnotationData).length) ∧
    (∀ (stored dataL : List RawAnnotationData),
      dataL.filter validateAnnotationData = [] →
      (importAnnotations stored dataL).2.1 =
        Except.error ("Failed to import annotations")) ∧
    (importAnnotations [] [rawGood ("a"), rawMissingId]).2.1 = Except.ok 1 := by
  refine ⟨?_, ?_, ?_, rfl⟩
  · intro stored a
    simp [loadAnnotations, List.mem_filter]
  · intro stored dataL h
    have hlen : ¬ (dataL.filter validateAnnotationData).length = 0 := by
      simpa [List.length_eq_zero] using h
    simp [importAnnotations, hlen]
  · intro stored dataL h
    simp [importAnnotations, h]

/-- Witness for C7 at a concrete input: importing one valid record returns
count 1. -/
theorem import_validation_spec_witness :
    (importAnnotations [] [rawGood ("a")]).2.1 = Except.ok 1 := by
  have h := import_validation_spec.2.1 [] [rawGood ("a")] (by decide)
  exact h.trans rfl

theorem foldl_merge_push (ids : List (Option String)) :
    ∀ (imported acc : List RawAnnotationData),
    imported.foldl (fun merged a => if a.id ∈ ids then merged else merged ++ [a]) acc =
      acc ++ imported.filter (fun a => !decide (a.id ∈ ids)) := by
  intro imported
  induction imported with
  | nil => intro acc; simp
  | cons a t ih =>
    intro acc
    by_cases h : a.id ∈ ids
    · simp [List.foldl_cons, List.filter_cons, h, ih]
    · simp [List.foldl_cons, List.filter_cons, h, ih]

/-- Claim C10 counterexample: importing into a store holding an invalid
record does not leave the existing record in place — the load step's
validation filter drops it, so the saved merged list no longer contains it. -/
theorem import_drops_invalid_stored :
    (importAnnotations [rawInvalidOnlyId] [rawGood ("b")]).1 = [rawGood ("b")] ∧
    rawInvalidOnlyId ∉ (importAnnotations [rawInvalidOnlyId] [rawGood ("b")]).1 := by
  decide

/-- Claim C10 (amended): the merge appends, after the loaded (validated)
records, exactly those valid imported records whose id is not among the
loaded records' ids — loaded records are kept unchanged and in order, but
stored records failing validation are dropped by the load step — and the
returned count is the number of valid imported records, which is at least
the number actually appended (so it can exceed it when ids collide). -/
theorem merge_appends_only_new_ids :
    (∀ existing imported : List RawAnnotationData,
      mergeAnnotations existing imported =
        existing ++ imported.filter
          (fun a => !(existing.map (fun b => b.id)).contains a.id)) ∧
    (∀ (stored dataL : List RawAnnotationData),
      dataL.filter validateAnnotationData ≠ [] →
      (importAnnotations stored dataL).1 =
        loadAnnotations stored ++
          (dataL.filter validateAnnotationData).filter
            (fun a => !((loadAnnotations stored).map (fun b => b.id)).contains a.id) ∧
      ((dataL.filter validateAnnotationData).filter
          (fun a => !((loadAnnotations stored).map (fun b => b.id)).contains a.id)).length ≤
        (dataL.filter validateAnnotationData).length) := by
  have hmerge : ∀ existing imported : List RawAnnotationData,
      mergeAnnotations existing imported =
        existing ++ imported.filter
          (fun a => !(existing.map (fun b => b.id)).contains a.id) := by
    intro existing imported
    have h0 := foldl_merge_push (existing.map (fun b => b.id)) imported existing
    simp only [mergeAnnotations]
    simpa using h0
  refine ⟨hmerge, ?_⟩
  intro stored dataL h
  have hlen : ¬ (dataL.filter validateAnnotationData).length = 0 := by
    simpa [List.length_eq_zero] using h
  constructor
  · simp only [importAnnotations, hlen, if_false]
    exact hmerge _ _
  · exact List.length_filter_le _ _

/-- Witness for C10 at a concrete input: importing one valid record into an
empty store appends exactly that record. -/
theorem merge_appends_only_new_ids_witness :
    (importAnnotations [] [rawGood ("a")]).1 = [rawGood ("a")] := by
  have h := (merge_appends_only_new_ids.2 [] [rawGood ("a")] (by decide)).1
  exact h.trans (by decide)

theorem foldl_move_last (tool : AnnotationTool) (scale pageNumber rl rt : ℚ) (idv : String)
    (now : ℚ) (sp : DrawPoint) :
    ∀ (ms : List (ℚ × ℚ)) (q : ℚ × ℚ) (cp : Option DrawPoint) (pv : Option AnnotationData),
    (ms ++ [q]).foldl
        (fun s p => handleMouseMove (some tool) scale pageNumber rl rt idv now p.1 p.2 s)
        ⟨true, some sp, cp, pv⟩ =
      ⟨true, some sp, some ⟨(q.1 - rl) / scale, (q.2 - rt) / scale⟩,
       createShapeAnnotationData tool pageNumber sp ⟨(q.1 - rl) / scale, (q.2 - rt) / scale⟩
         idv now⟩ := by
  intro ms
  induction ms with
  | nil =>
    intro q cp pv
    simp [handleMouseMove]
  | cons a t ih =>
    intro q cp pv
    simp only [List.cons_append, List.foldl_cons]
    have hstep : handleMouseMove (some tool) scale pageNumber rl rt idv now a.1 a.2
        ⟨true, some sp, cp, pv⟩ =
        ⟨true, some sp, some ⟨(a.1 - rl) / scale, (a.2 - rt) / scale⟩,
         createShapeAnnotationData tool pageNumber sp
           ⟨(a.1 - rl) / scale, (a.2 - rt) / scale⟩ idv now⟩ := by
      simp [handleMouseMove]
    rw [hstep]
    exact ih q _ _

theorem min_div_pos (a b c : ℚ) (hc : 0 < c) : min (a / c) (b / c) = min a b / c := by
  rcases le_total a b with h | h
  · rw [min_eq_left h, min_eq_left ((div_le_div_iff_of_pos_right hc).mpr h)]
  · rw [min_eq_right h, min_eq_right ((div_le_div_iff_of_pos_right hc).mpr h)]

theorem abs_sub_div (a b c : ℚ) (hc : 0 < c) : |a / c - b / c| = |a - b| / c := by
  rw [div_sub_div_same, abs_div, abs_of_pos hc]

theorem rect_hasMin (scale wv hv : ℚ) (hscale : 0 < scale) :
    (if (truthyNum (some (wv / scale)) && truthyNum (some (hv / scale))) = true then
       decide (10 / scale ≤ wv / scale) && decide (10 / scale ≤ hv / scale)
     else false) = (decide (10 ≤ wv) && decide (10 ≤ hv)) := by
  by_cases h1 : wv = 0
  · subst h1
    have h10 : ¬ (10 : ℚ) ≤ 0 := by norm_num
    simp [truthyNum, zero_div, h10]
  · by_cases h2 : hv = 0
    · subst h2
      have h10 : ¬ (10 : ℚ) ≤ 0 := by norm_num
      simp [truthyNum, zero_div, h10]
    · have hw0 : wv / scale ≠ 0 := div_ne_zero h1 (ne_of_gt hscale)
      have hh0 : hv / scale ≠ 0 := div_ne_zero h2 (ne_of_gt hscale)
      have e1 : decide (10 / scale ≤ wv / scale) = decide (10 ≤ wv) :=
        decide_eq_decide.mpr (div_le_div_iff_of_pos_right hscale)
      have e2 : decide (10 / scale ≤ hv / scale) = decide (10 ≤ hv) :=
        decide_eq_decide.mpr (div_le_div_iff_of_pos_right hscale)
      simp [truthyNum, hw0, hh0, e1, e2]

/-- Claim C2: a pointer-up with the rectangle tool active commits an
annotation exactly when the drag spans at least 10 raw view pixels in each
dimension (the source compares document-unit sizes against `10 / scale`);
the committed rectangle has its `x`/`y` at the minimum corner and its
width/height equal to the absolute drag deltas, all divided by `scale`;
sub-threshold drags commit nothing. Stated for a drag from `(downX, downY)`
through any move trail ending at `(lastX, lastY)`. -/
theorem shapeDrawer_commit (sqrtFn : ℚ → ℚ) (tool : AnnotationTool)
    (htool : tool.type = AnnotationType.rectangle) (scale pageNumber : ℚ)
    (hscale : 0 < scale) (downX downY : ℚ) (ms : List (ℚ × ℚ)) (lastX lastY : ℚ)
    (idv : String) (now : ℚ) :
    runShapeDrag sqrtFn tool scale pageNumber downX downY (ms ++ [(lastX, lastY)]) idv now =
      (if 10 ≤ |lastX - downX| ∧ 10 ≤ |lastY - downY| then
        some
          { id := idv, type := tool.type, pageNumber := pageNumber,
            coordinates :=
              { x := min downX lastX / scale, y := min downY lastY / scale,
                width := some (|lastX - downX| / scale),
                height := some (|lastY - downY| / scale), points := none },
            style :=
              { color := tool.color, strokeWidth := tool.strokeWidth,
                opacity := tool.opacity, fontSize := none },
            content := none, createdAt := now, updatedAt := now }
      else none) := by
  have h1 : handleMouseDown false (some tool) scale 0 0 downX downY initialDrawingState =
      ⟨true, some ⟨downX / scale, downY / scale⟩, some ⟨downX / scale, downY / scale⟩,
       none⟩ := by
    simp [handleMouseDown, isShapeTool, htool, initialDrawingState]
  have h2 := foldl_move_last tool scale pageNumber 0 0 idv now ⟨downX / scale, downY / scale⟩
    ms (lastX, lastY) (some ⟨downX / scale, downY / scale⟩) none
  simp only [sub_zero] at h2
  have h3 : createShapeAnnotationData tool pageNumber ⟨downX / scale, downY / scale⟩
      ⟨lastX / scale, lastY / scale⟩ idv now =
      some
        { id := idv, type := tool.type, pageNumber := pageNumber,
          coordinates :=
            { x := min (downX / scale) (lastX / scale),
              y := min (downY / scale) (lastY / scale),
              width := some (|lastX / scale - downX / scale|),
              height := some (|lastY / scale - downY / scale|), points := none },
          style :=
            { color := tool.color, strokeWidth := tool.strokeWidth,
              opacity := tool.opacity, fontSize := none },
          content := none, createdAt := now, updatedAt := now } := by
    rw [createShapeAnnotationData, htool]
  rw [runShapeDrag, h1, h2, h3]
  simp only [handleMouseUp, Option.getD_some]
  rw [min_div_pos _ _ _ hscale, min_div_pos _ _ _ hscale, abs_sub_div _ _ _ hscale,
    abs_sub_div _ _ _ hscale]
  rw [rect_hasMin _ _ _ hscale]
  exact if_congr (by simp) rfl rfl

/-- Witness for C2: at `scale = 2`, a drag from (100,100) to (200,200)
commits document-space `{x:50, y:50, width:50, height:50}`, while a drag
from (100,100) to (102,102) commits nothing. -/
theorem shapeDrawer_commit_witness :
    runShapeDrag (fun _ => 0) ⟨AnnotationType.rectangle, "#ff0000", 2, 1⟩ 2 1 100 100
        [(200, 200)] "u" 7 =
      some
        { id := "u", type := AnnotationType.rectangle, pageNumber := 1,
          coordinates :=
            { x := 50, y := 50, width := some 50, height := some 50, points := none },
          style := { color := "#ff0000", strokeWidth := 2, opacity := 1, fontSize := none },
          content := none, createdAt := 7, updatedAt := 7 } ∧
    runShapeDrag (fun _ => 0) ⟨AnnotationType.rectangle, "#ff0000", 2, 1⟩ 2 1 100 100
        [(102, 102)] "u" 7 = none := by
  constructor
  · have h := shapeDrawer_commit (fun _ => 0) ⟨AnnotationType.rectangle, "#ff0000", 2, 1⟩
      rfl 2 1 (by norm_num) 100 100 [] 200 200 "u" 7
    rw [List.nil_append] at h
    rw [h, if_pos (by constructor <;> norm_num)]
    norm_num [min_def]
  · have h := shapeDrawer_commit (fun _ => 0) ⟨AnnotationType.rectangle, "#ff0000", 2, 1⟩
      rfl 2 1 (by norm_num) 100 100 [] 102 102 "u" 7
    rw [List.nil_append] at h
    rw [h, if_neg (by intro hc; exact absurd hc.1 (by norm_num))]

/-- Claim C1 (amended): for every document-space rectangle whose width and
height are each absent or nonzero, any page dimensions, and any viewport with
`scale > 0` (any rotation and offsets), converting with `pdfToCanvas` and
back with `canvasToPdf` returns the original rectangle exactly — hence well
within the claimed 1e-6 tolerance. The nonzero proviso is forced by
`roundtrip_zero_width_cex`: a present zero width or height is falsy in JS
and comes back as `undefined`. -/
theorem roundtrip_within_epsilon (r : PDFCoordinates) (d : PageDimensions)
    (v : ViewportTransform) (hs : 0 < v.scale)
    (hw : ∀ w, r.width = some w → w ≠ 0) (hh : ∀ w, r.height = some w → w ≠ 0) :
    canvasToPdf (pdfToCanvas r d v) d v = r :=
  canvasToPdf_pdfToCanvas r d v (ne_of_gt hs) hw hh

/-- Witness for C1 at a concrete rectangle, page size and viewport (scale 2,
rotation 37 degrees, nonzero offsets). -/
theorem roundtrip_within_epsilon_witness :
    canvasToPdf (pdfToCanvas ⟨1, 2, some 3, some 4⟩ ⟨612, 792⟩ ⟨2, 37, 5, 7⟩)
      ⟨612, 792⟩ ⟨2, 37, 5, 7⟩ = ⟨1, 2, some 3, some 4⟩ :=
  roundtrip_within_epsilon ⟨1, 2, some 3, some 4⟩ ⟨612, 792⟩ ⟨2, 37, 5, 7⟩ (by norm_num)
    (fun w hw => by
      have h3 : (3 : ℝ) = w := by simpa using hw
      rw [← h3]; norm_num)
    (fun w hw => by
      have h4 : (4 : ℝ) = w := by simpa using hw
      rw [← h4]; norm_num)

/-- Claim C1 counterexample: the rectangle `{x:0, y:0, width:0, height:5}`
does not round-trip — `0` is falsy, so `pdfToCanvas` emits `undefined` for
the width and the round trip returns no width at all, which is not within
1e-6 of the original width 0. -/
theorem roundtrip_zero_width_cex :
    (canvasToPdf (pdfToCanvas ⟨0, 0, some 0, some 5⟩ ⟨10, 10⟩ ⟨1, 0, 0, 0⟩)
      ⟨10, 10⟩ ⟨1, 0, 0, 0⟩).width = none ∧
    (⟨0, 0, some 0, some 5⟩ : PDFCoordinates).width = some 0 ∧
    ¬ ∃ w : ℝ,
      (canvasToPdf (pdfToCanvas ⟨0, 0, some 0, some 5⟩ ⟨10, 10⟩ ⟨1, 0, 0, 0⟩)
        ⟨10, 10⟩ ⟨1, 0, 0, 0⟩).width = some w ∧ |w - 0| ≤ 1 / 1000000 := by
  have hwidth : (canvasToPdf (pdfToCanvas ⟨0, 0, some 0, some 5⟩ ⟨10, 10⟩ ⟨1, 0, 0, 0⟩)
      ⟨10, 10⟩ ⟨1, 0, 0, 0⟩).width = none := by
    simp [pdfToCanvas, canvasToPdf, jsTruthyMap]
  refine ⟨hwidth, rfl, ?_⟩
  rintro ⟨w, hw, _⟩
  rw [hwidth] at hw
  exact Option.noConfusion hw

/-- Claim C9 counterexample: with `scale = -1 ≤ 0` neither transform fails
fast — both return ordinary computed rectangles (`canvasToPdf` divides by
the negative scale). -/
theorem transform_accepts_nonpositive_scale :
    pdfToCanvas ⟨1, 1, none, none⟩ ⟨10, 10⟩ ⟨-1, 0, 0, 0⟩ = ⟨-1, -9, none, none⟩ ∧
    canvasToPdf ⟨4, 6, none, none⟩ ⟨10, 10⟩ ⟨-1, 0, 0, 0⟩ = ⟨-4, 16, none, none⟩ := by
  constructor
  · simp [pdfToCanvas, jsOrZero, jsTruthyMap, CanvasCoordinates.mk.injEq]
    norm_num
  · simp [canvasToPdf, jsTruthyMap, PDFCoordinates.mk.injEq]
    norm_num

/-- Claim C9 (amended): the transforms perform no input validation at all;
for any nonzero scale — negative scale included — they compute ordinary
results and remain exact mutual inverses (for rectangles whose width and
height are each absent or nonzero). -/
theorem roundtrip_negative_scale (r : PDFCoordinates) (d : PageDimensions)
    (v : ViewportTransform) (hs : v.scale < 0)
    (hw : ∀ w, r.width = some w → w ≠ 0) (hh : ∀ w, r.height = some w → w ≠ 0) :
    canvasToPdf (pdfToCanvas r d v) d v = r :=
  canvasToPdf_pdfToCanvas r d v (ne_of_lt hs) hw hh

/-- Witness for C9 at `scale = -1`. -/
theorem roundtrip_negative_scale_witness :
    canvasToPdf (pdfToCanvas ⟨1, 2, some 3, none⟩ ⟨10, 20⟩ ⟨-1, 0, 0, 0⟩)
      ⟨10, 20⟩ ⟨-1, 0, 0, 0⟩ = ⟨1, 2, some 3, none⟩ :=
  roundtrip_negative_scale ⟨1, 2, some 3, none⟩ ⟨10, 20⟩ ⟨-1, 0, 0, 0⟩ (by norm_num)
    (fun w hw => by
      have h3 : (3 : ℝ) = w := by simpa using hw
      rw [← h3]; norm_num)
    (fun w hw => by simp at hw)
